import Mathlib

/-!
# Weekly Recurring Schedule Synchronization Engine — verification

Shallow embedding of the schedule/task modules (`scripts/schedule.js`,
`scripts/tasks.js`).  Dates are modelled as integer day numbers since the
Unix epoch (1970-01-01, a Thursday); instants are integer minutes since the
epoch, so `setHours`-style normalization is plain arithmetic.  JavaScript's
`NaN` propagation through `parseInt`/`setHours` (an Invalid Date) is
modelled by `Option`.  Handlers become pure functions from their inputs and
the remote outcome to the new registry state plus an ordered trace of
effects (remote calls, registry mutations, UI affordances), mirroring the
statement order of the source.
-/

namespace GR

/-- JavaScript `Date.getDay` for a day number: 1970-01-01 is Thursday (4),
so the weekday of day `n` is `(n + 4) % 7`, always in `[0,6]`. -/
def weekday (n : Int) : Int := (n + 4) % 7

/-- `getDateForDayOfWeek` from `scripts/schedule.js`:
`distance = dayOfWeek - now.getDay()`, result is `now` shifted by
`distance` days with the time part reset to midnight.  `now` is the
ambient reference date, passed explicitly here as a day number. -/
def getDateForDayOfWeek (dayOfWeek : Int) (now : Int) : Int :=
  now + (dayOfWeek - weekday now)

/-- Leading decimal digits of a character list. -/
def leadingDigits (cs : List Char) : List Char :=
  cs.takeWhile (fun c => c.isDigit)

/-- Numeric value of a digit string. -/
def digitsToNat (cs : List Char) : Nat :=
  cs.foldl (fun a c => a * 10 + (c.toNat - 48)) 0

/-- JavaScript `parseInt` (radix 10): skip whitespace, optional sign,
read leading digits; `none` models `NaN` (no digits). -/
def jsParseInt (s : String) : Option Int :=
  let cs := s.data.dropWhile (fun c => c.isWhitespace)
  match cs with
  | '-' :: rest =>
      if (leadingDigits rest).isEmpty then none
      else some (-(digitsToNat (leadingDigits rest) : Int))
  | '+' :: rest =>
      if (leadingDigits rest).isEmpty then none
      else some ((digitsToNat (leadingDigits rest) : Int))
  | _ =>
      if (leadingDigits cs).isEmpty then none
      else some ((digitsToNat (leadingDigits cs) : Int))

/-- `String.split(c)` on a character, structural recursion on the data. -/
def splitCharAux (c : Char) : List Char → List Char → List (List Char)
  | [], cur => [cur.reverse]
  | x :: xs, cur =>
      if x = c then cur.reverse :: splitCharAux c xs []
      else splitCharAux c xs (x :: cur)

/-- JavaScript `s.split(c)`. -/
def jsSplit (s : String) (c : Char) : List String :=
  (splitCharAux c s.data []).map (fun l => String.mk l)

/-- `parseInt(t.split(':')[i])`: indexing past the end gives `undefined`,
and `parseInt(undefined)` is `NaN` (`none`). -/
def parseTimePart (t : String) (i : Nat) : Option Int :=
  ((jsSplit t ':')[i]?).bind jsParseInt

/-- `date.setHours(h, m)` on the midnight of day `day`, as minutes since
the epoch.  A `NaN` anywhere (`none`) yields an Invalid Date (`none`);
out-of-range hours roll over into neighbouring days exactly as in JS. -/
def jsSetHours (day : Option Int) (h m : Option Int) : Option Int :=
  match day, h, m with
  | some d, some h, some m => some (d * 1440 + h * 60 + m)
  | _, _, _ => none

/-- A row of the remote `schedules` table as the loader sees it. -/
structure Schedule where
  id : String
  class_name : String
  day : String
  start_time : String
  end_time : String
  room : String
  professor : String
deriving Repr, DecidableEq

/-- A FullCalendar event as built by `loadUserSchedule` /
`handleScheduleSubmit`: `id` may be `null`, `start`/`endT` are instants in
minutes (`none` = Invalid Date), `daysOfWeek` holds the parsed day. -/
structure CalEvent where
  id : Option String
  title : String
  start : Option Int
  endT : Option Int
  daysOfWeek : Option Int
  startTime : String
  endTime : String
  room : String
  professor : String
  scheduleId : Option String
deriving Repr, DecidableEq

/-- The per-entry conversion inside `loadUserSchedule`'s `data.map`:
parse `day`, compute the date for that weekday, clone it for the end, and
set the hours from the `HH:MM` strings.  No validation of any kind. -/
def scheduleToEvent (s : Schedule) (now : Int) : CalEvent :=
  let dayNumber := jsParseInt s.day
  let startDate := dayNumber.map (fun d => getDateForDayOfWeek d now)
  { id := some s.id
    title := s.class_name
    start := jsSetHours startDate (parseTimePart s.start_time 0) (parseTimePart s.start_time 1)
    endT := jsSetHours startDate (parseTimePart s.end_time 0) (parseTimePart s.end_time 1)
    daysOfWeek := dayNumber
    startTime := s.start_time
    endTime := s.end_time
    room := s.room
    professor := s.professor
    scheduleId := some s.id }

/-- `loadUserSchedule`: every fetched row is mapped to an event and added
to the calendar; nothing is skipped or rejected. -/
def loadUserScheduleEvents (data : List Schedule) (now : Int) : List CalEvent :=
  data.map (fun s => scheduleToEvent s now)

/-- Observable effects of a handler, in statement order: remote store
calls, registry (calendar) mutations, and UI affordances.  The type has no
constructor for a concurrency rejection because the source performs none. -/
inductive Effect where
  | remoteUpdate (id : String)
  | remoteInsert
  | remoteDelete (id : String)
  | remoteTaskUpdate (id : String) (completed : Bool)
  | registryAdd (ev : CalEvent)
  | registryRemove (id : String)
  | viewRevert
  | confirmPrompt
  | alertValidation
  | alertError
  | surfaceSuccess
  | hideModal
deriving Repr, DecidableEq

/-- `calendar` event list with the event of a given id replaced (what the
view binding does when a drag lands, and what `info.revert()` undoes). -/
def applyDrag (reg : List CalEvent) (id : String) (ev : CalEvent) : List CalEvent :=
  reg.map (fun e => if e.scheduleId = some id then ev else e)

/-- `eventDrop` from `scripts/schedule.js`: the calendar has already moved
the event to `dropped` when the handler fires; the handler issues the
remote update of `day`/`start_time`/`end_time`; on failure it calls
`info.revert()`, restoring the pre-drag event `prior`. -/
def eventDrop (reg : List CalEvent) (id : String) (prior dropped : CalEvent)
    (remoteOk : Bool) : List CalEvent × List Effect :=
  let reg1 := applyDrag reg id dropped
  if remoteOk then
    (reg1, [Effect.remoteUpdate id, Effect.surfaceSuccess])
  else
    (applyDrag reg1 id prior, [Effect.remoteUpdate id, Effect.viewRevert, Effect.alertError])

/-- `eventResize` from `scripts/schedule.js`: same shape as `eventDrop`,
but the remote update carries only `end_time`; failure also reverts. -/
def eventResize (reg : List CalEvent) (id : String) (prior resized : CalEvent)
    (remoteOk : Bool) : List CalEvent × List Effect :=
  let reg1 := applyDrag reg id resized
  if remoteOk then
    (reg1, [Effect.remoteUpdate id, Effect.surfaceSuccess])
  else
    (applyDrag reg1 id prior, [Effect.remoteUpdate id, Effect.viewRevert, Effect.alertError])

/-- The schedule form's fields as read in `handleScheduleSubmit`
(`schedule-id` is the hidden field, empty for a create). -/
structure ScheduleForm where
  scheduleId : String
  className : String
  day : String
  startTime : String
  endTime : String
  room : String
  professor : String
deriving Repr, DecidableEq

/-- Outcome of the awaited Supabase call: `ok` carries the persisted id of
`data[0]` for an insert-with-select (`none` when `data` is empty), `err`
is a thrown error. -/
inductive RemoteResult where
  | ok (returnedId : Option String)
  | err
deriving Repr, DecidableEq

/-- The event built after a successful save in `handleScheduleSubmit`
(same date/hours computation as the loader; `id` is the global
`currentScheduleId`). -/
def buildEvent (f : ScheduleForm) (curId : Option String) (now : Int) : CalEvent :=
  let dayNumber := jsParseInt f.day
  let startDate := dayNumber.map (fun d => getDateForDayOfWeek d now)
  { id := curId
    title := f.className
    start := jsSetHours startDate (parseTimePart f.startTime 0) (parseTimePart f.startTime 1)
    endT := jsSetHours startDate (parseTimePart f.endTime 0) (parseTimePart f.endTime 1)
    daysOfWeek := dayNumber
    startTime := f.startTime
    endTime := f.endTime
    room := f.room
    professor := f.professor
    scheduleId := curId }

/-- `handleScheduleSubmit` from `scripts/schedule.js`, in statement order:
validate non-emptiness of the four required fields; then, for an edit
(`scheduleId` non-empty), await the remote update, and only on success
remove the old event (`getEventById`, a no-op when absent) and add the
rebuilt one; for a create, await the remote insert, and only on success
set `currentScheduleId` from the returned row and add the event.  The
`catch` paths leave the calendar untouched and alert. -/
def handleScheduleSubmit (reg : List CalEvent) (f : ScheduleForm)
    (currentScheduleId : Option String) (now : Int) (remote : RemoteResult) :
    List CalEvent × Option String × List Effect :=
  if f.className = "" ∨ f.day = "" ∨ f.startTime = "" ∨ f.endTime = "" then
    (reg, currentScheduleId, [Effect.alertValidation])
  else if f.scheduleId ≠ "" then
    match remote with
    | RemoteResult.err =>
        (reg, currentScheduleId, [Effect.remoteUpdate f.scheduleId, Effect.alertError])
    | RemoteResult.ok _ =>
        let ev := buildEvent f currentScheduleId now
        (reg.filter (fun e => e.id ≠ some f.scheduleId) ++ [ev], currentScheduleId,
          Effect.remoteUpdate f.scheduleId ::
            ((if reg.any (fun e => e.id = some f.scheduleId) then
                [Effect.registryRemove f.scheduleId] else []) ++
             [Effect.registryAdd ev, Effect.hideModal]))
  else
    match remote with
    | RemoteResult.err =>
        (reg, currentScheduleId, [Effect.remoteInsert, Effect.alertError])
    | RemoteResult.ok ret =>
        let newCur := match ret with
          | some i => some i
          | none => currentScheduleId
        let ev := buildEvent f newCur now
        (reg ++ [ev], newCur,
          [Effect.remoteInsert, Effect.registryAdd ev, Effect.hideModal])

/-- `handleScheduleDelete` from `scripts/schedule.js`: bail out when
`currentScheduleId` is null; otherwise `confirm`, await the remote delete,
and only on success remove the event (when present) and hide the modal;
on failure the calendar is untouched and an alert is shown. -/
def handleScheduleDelete (reg : List CalEvent) (currentScheduleId : Option String)
    (confirmed : Bool) (remoteOk : Bool) : List CalEvent × List Effect :=
  match currentScheduleId with
  | none => (reg, [])
  | some id =>
    if confirmed then
      if remoteOk then
        (reg.filter (fun e => e.id ≠ some id),
         Effect.confirmPrompt :: Effect.remoteDelete id ::
           ((if reg.any (fun e => e.id = some id) then [Effect.registryRemove id] else []) ++
            [Effect.hideModal]))
      else
        (reg, [Effect.confirmPrompt, Effect.remoteDelete id, Effect.alertError])
    else (reg, [Effect.confirmPrompt])

/-- Rendered state of one task row: the checkbox and the
`task-completed` CSS class. -/
structure TaskItemState where
  checked : Bool
  completedClass : Bool
deriving Repr, DecidableEq

/-- `handleTaskCompletion` from `scripts/tasks.js`: the change handler
reads the already-toggled checkbox, awaits the remote update of
`completed`, on success syncs the CSS class, and on failure reverts the
checkbox to its pre-toggle state. -/
def handleTaskCompletion (taskId : String) (s : TaskItemState) (remoteOk : Bool) :
    TaskItemState × List Effect :=
  let completed := s.checked
  if remoteOk then
    ({ s with completedClass := completed }, [Effect.remoteTaskUpdate taskId completed])
  else
    ({ s with checked := !completed }, [Effect.remoteTaskUpdate taskId completed])

/-- Clicking the checkbox: the browser flips `checked` before the change
handler runs — this is the optimistic local flip. -/
def userToggle (s : TaskItemState) : TaskItemState := { s with checked := !s.checked }

/-- A completion toggle end to end: optimistic flip, then the handler. -/
def taskToggleFlow (taskId : String) (s : TaskItemState) (remoteOk : Bool) :
    TaskItemState × List Effect :=
  handleTaskCompletion taskId (userToggle s) remoteOk

/-- Claim C1: for every entry with `dayOfWeek` `d` in `[0,6]` and reference day `r`,
the projected date is `r + (d - weekday r)`, its weekday is `d`, it lies in
the Sunday-anchored week containing `r`, and the entry's `startTime` is
applied as the time of day on that date. -/
theorem projection_lands_on_dayOfWeek (d r : Int) (hd0 : 0 ≤ d) (hd6 : d ≤ 6)
    (s : Schedule) (hday : jsParseInt s.day = some d)
    (hh hm : Int) (hsh : parseTimePart s.start_time 0 = some hh)
    (hsm : parseTimePart s.start_time 1 = some hm) :
    getDateForDayOfWeek d r = r + (d - weekday r) ∧
    weekday (getDateForDayOfWeek d r) = d ∧
    getDateForDayOfWeek d r - weekday (getDateForDayOfWeek d r) = r - weekday r ∧
    (scheduleToEvent s r).start =
      some (getDateForDayOfWeek d r * 1440 + hh * 60 + hm) := by
  refine ⟨rfl, ?_, ?_, ?_⟩
  · unfold getDateForDayOfWeek weekday
    omega
  · unfold getDateForDayOfWeek weekday
    omega
  · simp [scheduleToEvent, hday, hsh, hsm, jsSetHours, Option.map]

/-- Claim C1 witness: the entry `{dayOfWeek:1, 09:00–10:30, "Algorithms"}`
projected against day 6 (a Wednesday, weekday 3) lands on day 4, the
Monday of the same week, at 09:00. -/
theorem projection_lands_on_dayOfWeek_witness :
    (0 : Int) ≤ 1 ∧ (1 : Int) ≤ 6 ∧
    (getDateForDayOfWeek 1 6 = 6 + (1 - weekday 6) ∧
     weekday (getDateForDayOfWeek 1 6) = 1 ∧
     getDateForDayOfWeek 1 6 - weekday (getDateForDayOfWeek 1 6) = 6 - weekday 6 ∧
     (scheduleToEvent ⟨"5", "Algorithms", "1", "09:00", "10:30", "", ""⟩ 6).start =
       some (getDateForDayOfWeek 1 6 * 1440 + 9 * 60 + 0)) :=
  ⟨by decide, by decide,
   projection_lands_on_dayOfWeek 1 6 (by decide) (by decide)
     ⟨"5", "Algorithms", "1", "09:00", "10:30", "", ""⟩ (by decide)
     9 0 (by decide) (by decide)⟩

/-- Reverting a drag: if every event stored under `id` equals the
pre-drag snapshot `prior`, replacing by the dragged event and then
restoring `prior` is the identity on the registry. -/
theorem applyDrag_revert (id : String) (prior newEv : CalEvent)
    (hnew : newEv.scheduleId = some id) :
    ∀ reg : List CalEvent, (∀ e ∈ reg, e.scheduleId = some id → e = prior) →
      applyDrag (applyDrag reg id newEv) id prior = reg := by
  intro reg
  induction reg with
  | nil => intro _; rfl
  | cons e es ih =>
    intro hprior
    have hes : ∀ x ∈ es, x.scheduleId = some id → x = prior :=
      fun x hx h => hprior x (List.mem_cons_of_mem e hx) h
    have ihe := ih hes
    by_cases hc : e.scheduleId = some id
    · have he : e = prior := hprior e (List.mem_cons_self e es) hc
      have hcp : prior.scheduleId = some id := he ▸ hc
      simp only [applyDrag] at ihe ⊢
      simp [hc, hcp, hnew, ihe, he]
    · simp only [applyDrag] at ihe ⊢
      simp [hc, ihe]

/-- Claim C2: if a drag-move or a resize is applied and the remote update fails,
the handler invokes the view binding's revert, and the registry afterwards
holds exactly the pre-mutation events (bit-for-bit). -/
theorem drag_resize_rollback (reg : List CalEvent) (id : String)
    (prior dropped resized : CalEvent)
    (hdrop : dropped.scheduleId = some id) (hres : resized.scheduleId = some id)
    (hprior : ∀ e ∈ reg, e.scheduleId = some id → e = prior) :
    (eventDrop reg id prior dropped false).1 = reg ∧
    Effect.viewRevert ∈ (eventDrop reg id prior dropped false).2 ∧
    (eventResize reg id prior resized false).1 = reg ∧
    Effect.viewRevert ∈ (eventResize reg id prior resized false).2 := by
  refine ⟨?_, ?_, ?_, ?_⟩
  · simp [eventDrop, applyDrag_revert id prior dropped hdrop reg hprior]
  · simp [eventDrop]
  · simp [eventResize, applyDrag_revert id prior resized hres reg hprior]
  · simp [eventResize]

/-- The rendered occurrence of entry `"1"`: Monday 09:00–10:30. -/
def evA : CalEvent :=
  { id := some "1", title := "Algo", start := some 6300, endT := some 6390,
    daysOfWeek := some 1, startTime := "09:00", endTime := "10:30",
    room := "", professor := "", scheduleId := some "1" }

/-- `evA` dragged to Wednesday 14:00–15:30. -/
def evB : CalEvent :=
  { evA with start := some 9480, endT := some 9570,
             daysOfWeek := some 3, startTime := "14:00", endTime := "15:30" }

/-- `evA` resized to end at 11:00. -/
def evC : CalEvent :=
  { evA with endT := some 6420, endTime := "11:00" }

/-- The entry dragged a second time, to Friday 10:00–11:30. -/
def evD : CalEvent :=
  { evA with start := some 12120, endT := some 12210,
             daysOfWeek := some 5, startTime := "10:00", endTime := "11:30" }

/-- Claim C2 witness: dropping/resizing the single rendered event of entry `"1"`
with a failing remote restores the registry to `[evA]` and reverts. -/
theorem drag_resize_rollback_witness :
    (eventDrop [evA] "1" evA evB false).1 = [evA] ∧
    Effect.viewRevert ∈ (eventDrop [evA] "1" evA evB false).2 ∧
    (eventResize [evA] "1" evA evC false).1 = [evA] ∧
    Effect.viewRevert ∈ (eventResize [evA] "1" evA evC false).2 :=
  drag_resize_rollback [evA] "1" evA evB evC (by decide) (by decide) (by decide)

/-- Claim C3 counterexample: a create whose `startTime` is not before its
`endTime` (10:00–09:00, all fields non-empty) is not rejected — the remote
insert is issued, so the code performs no `startTime < endTime` check. -/
theorem create_no_time_order_check :
    Effect.remoteInsert ∈
      (handleScheduleSubmit [] ⟨"", "Algebra", "1", "10:00", "09:00", "", ""⟩
        none 6 RemoteResult.err).2.2 := by
  decide

/-- Claim C3 (amended): validation checks only that `title`, `dayOfWeek`,
`startTime`, `endTime` are non-empty; if any is empty the submit aborts
with the validation alert, the registry is unchanged, and no remote call
is issued (`startTime < endTime` is not checked). -/
theorem create_validation_rejects_empty (reg : List CalEvent) (f : ScheduleForm)
    (cur : Option String) (now : Int) (remote : RemoteResult)
    (h : f.className = "" ∨ f.day = "" ∨ f.startTime = "" ∨ f.endTime = "") :
    (handleScheduleSubmit reg f cur now remote).1 = reg ∧
    (handleScheduleSubmit reg f cur now remote).2.2 = [Effect.alertValidation] := by
  unfold handleScheduleSubmit
  rw [if_pos h]
  exact ⟨rfl, rfl⟩

/-- Claim C3 witness: a create with an empty title leaves the registry as
it was and emits only the validation alert. -/
theorem create_validation_rejects_empty_witness :
    (handleScheduleSubmit [evA] ⟨"", "", "1", "09:00", "10:30", "", ""⟩
      none 6 RemoteResult.err).1 = [evA] ∧
    (handleScheduleSubmit [evA] ⟨"", "", "1", "09:00", "10:30", "", ""⟩
      none 6 RemoteResult.err).2.2 = [Effect.alertValidation] :=
  create_validation_rejects_empty [evA] ⟨"", "", "1", "09:00", "10:30", "", ""⟩
    none 6 RemoteResult.err (Or.inl rfl)

/-- Claim C4 counterexample: a valid create whose remote insert fails ends
with the registry exactly as before and a trace of remote-insert then
alert — no provisional occurrence was ever registered, so the optimistic
registration the claim asserts does not happen before the remote call. -/
theorem create_is_not_optimistic :
    handleScheduleSubmit [] ⟨"", "Algorithms", "1", "09:00", "10:30", "", ""⟩
        none 6 RemoteResult.err
      = ([], none, [Effect.remoteInsert, Effect.alertError]) := by
  decide

/-- Claim C4 (amended): for a valid create the remote insert is issued
first with no provisional occurrence; on failure the registry is
unchanged, and on success the event keyed by the returned persisted id is
added only after the remote call. -/
theorem create_remote_first (reg : List CalEvent) (f : ScheduleForm)
    (cur : Option String) (now : Int)
    (hv : ¬(f.className = "" ∨ f.day = "" ∨ f.startTime = "" ∨ f.endTime = ""))
    (hc : f.scheduleId = "") :
    handleScheduleSubmit reg f cur now RemoteResult.err
      = (reg, cur, [Effect.remoteInsert, Effect.alertError]) ∧
    ∀ i : String,
      handleScheduleSubmit reg f cur now (RemoteResult.ok (some i))
        = (reg ++ [buildEvent f (some i) now], some i,
           [Effect.remoteInsert, Effect.registryAdd (buildEvent f (some i) now),
            Effect.hideModal]) := by
  constructor
  · unfold handleScheduleSubmit
    rw [if_neg hv]
    simp [hc]
  · intro i
    unfold handleScheduleSubmit
    rw [if_neg hv]
    simp [hc]

/-- The valid "Algorithms" create form. -/
def formAlgo : ScheduleForm :=
  ⟨"", "Algorithms", "1", "09:00", "10:30", "B2", "Dr. X"⟩

/-- Claim C4 witness: the "Algorithms" create at reference day 6 —
failure leaves the empty registry empty; success with returned id `"42"`
appends the event keyed `"42"` after the remote insert. -/
theorem create_remote_first_witness :
    handleScheduleSubmit [] formAlgo none 6 RemoteResult.err
      = ([], none, [Effect.remoteInsert, Effect.alertError]) ∧
    handleScheduleSubmit [] formAlgo none 6 (RemoteResult.ok (some "42"))
      = ([buildEvent formAlgo (some "42") 6], some "42",
         [Effect.remoteInsert, Effect.registryAdd (buildEvent formAlgo (some "42") 6),
          Effect.hideModal]) :=
  ⟨(create_remote_first [] formAlgo none 6 (by decide) rfl).1,
   (create_remote_first [] formAlgo none 6 (by decide) rfl).2 "42"⟩

/-- Claim C5: the code keeps no in-flight set, so while the first drag's
remote update on entry `"1"` is still unresolved (the calendar already
showing the dragged event `evB`), a second drag on the same entry is
processed in full — it issues its own remote update and moves the registry
to `evD` — instead of being rejected with a concurrency error (the
`Effect` type has no such rejection because the source has none). -/
theorem second_mutation_not_rejected :
    (eventDrop (applyDrag [evA] "1" evB) "1" evB evD true).1 = [evD] ∧
    Effect.remoteUpdate "1" ∈ (eventDrop (applyDrag [evA] "1" evB) "1" evB evD true).2 := by
  decide

/-- Claim C6: a confirmed delete issues the remote call with no optimistic
removal — on failure the registry is exactly what it was and an error is
surfaced; on success the occurrence is removed, and every registry effect
in the trace comes after the remote delete. -/
theorem delete_remote_then_remove (reg : List CalEvent) (id : String) :
    handleScheduleDelete reg (some id) true false
      = (reg, [Effect.confirmPrompt, Effect.remoteDelete id, Effect.alertError]) ∧
    (handleScheduleDelete reg (some id) true true).1
      = reg.filter (fun e => e.id ≠ some id) ∧
    (handleScheduleDelete reg (some id) true true).2
      = Effect.confirmPrompt :: Effect.remoteDelete id ::
          ((if reg.any (fun e => e.id = some id) then [Effect.registryRemove id] else []) ++
           [Effect.hideModal]) := by
  refine ⟨rfl, rfl, rfl⟩

/-- Claim C7 counterexample: an entry with `dayOfWeek = "7"` (out of
range) is not rejected, skipped, or logged: the loader still produces
exactly one event; against reference day 6 (Wednesday) its start is day
10 at 09:00 — a Sunday, but of the next week, not the reference week.
An entry whose start time `"abc"` is not `HH:MM` also yields an event
(with an Invalid-Date start) rather than being skipped. -/
theorem loader_accepts_invalid_entries :
    (loadUserScheduleEvents [⟨"9", "X", "7", "09:00", "10:30", "", ""⟩] 6).length = 1 ∧
    (scheduleToEvent ⟨"9", "X", "7", "09:00", "10:30", "", ""⟩ 6).start
      = some (10 * 1440 + 9 * 60) ∧
    weekday 10 = 0 ∧
    ¬(10 - weekday 10 = 6 - weekday 6) ∧
    (loadUserScheduleEvents [⟨"9", "X", "2", "abc", "10:30", "", ""⟩] 6).length = 1 ∧
    (scheduleToEvent ⟨"9", "X", "2", "abc", "10:30", "", ""⟩ 6).start = none := by
  decide

/-- Claim C7 (amended): the loader performs no validation at all — every
fetched entry is mapped to exactly one event (none skipped, no
`InvalidEntry` error exists), and an arbitrary integer `dayOfWeek` is
still projected to a date whose weekday is `dayOfWeek mod 7`, possibly
outside the reference week; unparseable times propagate as an
Invalid-Date (`none`) start instead of aborting the render loop. -/
theorem loader_maps_every_entry (data : List Schedule) (now : Int) :
    (loadUserScheduleEvents data now).length = data.length ∧
    ∀ d : Int, weekday (getDateForDayOfWeek d now) = d % 7 := by
  constructor
  · simp [loadUserScheduleEvents]
  · intro d
    unfold getDateForDayOfWeek weekday
    omega

/-- Claim C8: a completion toggle flips the checkbox optimistically (the
remote update is issued with the flipped value while the checkbox already
shows it); on remote failure the checkbox reverts to its pre-toggle
value, and on success the CSS class is synced to the new value. -/
theorem task_toggle_optimistic_revert (taskId : String) (s : TaskItemState) :
    (userToggle s).checked = !s.checked ∧
    (taskToggleFlow taskId s false).1.checked = s.checked ∧
    (taskToggleFlow taskId s false).2 = [Effect.remoteTaskUpdate taskId (!s.checked)] ∧
    (taskToggleFlow taskId s true).1.checked = !s.checked ∧
    (taskToggleFlow taskId s true).1.completedClass = !s.checked ∧
    (taskToggleFlow taskId s true).2 = [Effect.remoteTaskUpdate taskId (!s.checked)] := by
  simp [taskToggleFlow, handleTaskCompletion, userToggle]

/-- Claim C9: a form edit of an existing entry is not optimistic — on
remote failure the registry is exactly the pre-submission one with no
registry effect in the trace; on remote success the old occurrence is
removed and the rebuilt one added only after the remote update, as the
trace order shows. -/
theorem edit_no_optimistic_change (reg : List CalEvent) (f : ScheduleForm)
    (cur : Option String) (now : Int)
    (hv : ¬(f.className = "" ∨ f.day = "" ∨ f.startTime = "" ∨ f.endTime = ""))
    (hid : f.scheduleId ≠ "") :
    handleScheduleSubmit reg f cur now RemoteResult.err
      = (reg, cur, [Effect.remoteUpdate f.scheduleId, Effect.alertError]) ∧
    ∀ ret : Option String,
      handleScheduleSubmit reg f cur now (RemoteResult.ok ret)
        = (reg.filter (fun e => e.id ≠ some f.scheduleId) ++ [buildEvent f cur now], cur,
           Effect.remoteUpdate f.scheduleId ::
             ((if reg.any (fun e => e.id = some f.scheduleId) then
                 [Effect.registryRemove f.scheduleId] else []) ++
              [Effect.registryAdd (buildEvent f cur now), Effect.hideModal])) := by
  constructor
  · unfold handleScheduleSubmit
    rw [if_neg hv, if_pos hid]
  · intro ret
    unfold handleScheduleSubmit
    rw [if_neg hv, if_pos hid]

/-- The edit form resubmitting entry `"1"` as Wednesday 14:00–15:30. -/
def formEdit : ScheduleForm :=
  ⟨"1", "Algo", "3", "14:00", "15:30", "", ""⟩

/-- Claim C9 witness: editing entry `"1"` with a failing remote leaves the
registry `[evA]` untouched; with a successful remote the old event is
replaced only after the remote update. -/
theorem edit_no_optimistic_change_witness :
    handleScheduleSubmit [evA] formEdit (some "1") 6 RemoteResult.err
      = ([evA], some "1", [Effect.remoteUpdate "1", Effect.alertError]) ∧
    handleScheduleSubmit [evA] formEdit (some "1") 6 (RemoteResult.ok none)
      = ([evA].filter (fun e => e.id ≠ some "1") ++ [buildEvent formEdit (some "1") 6],
         some "1",
         Effect.remoteUpdate "1" ::
           ((if [evA].any (fun e => e.id = some "1") then
               [Effect.registryRemove "1"] else []) ++
            [Effect.registryAdd (buildEvent formEdit (some "1") 6), Effect.hideModal])) :=
  ⟨(edit_no_optimistic_change [evA] formEdit (some "1") 6 (by decide) (by decide)).1,
   (edit_no_optimistic_change [evA] formEdit (some "1") 6 (by decide) (by decide)).2 none⟩

/-- Claim C10: with no active schedule id the delete handler is a total
no-op — the registry is returned unchanged and no effect (no prompt, no
remote call, no registry or view change) is emitted. -/
theorem delete_noop_without_active_id (reg : List CalEvent) (confirmed remoteOk : Bool) :
    handleScheduleDelete reg none confirmed remoteOk = (reg, []) := rfl

end GR
